import Mathlib

set_option autoImplicit false

namespace FeedbackBot

/-!
Shallow embedding of `bot.py` (TripleA Feedback Bot): the Google-Sheets row
store helpers, the language store, the aiogram survey state machine, and the
`/stats` aggregation, together with theorems about them.

A worksheet is modelled as a header row plus data rows.  Cells are strings;
row and column indices are 1-based with the header as row 1, matching gspread:
data row `i` (0-based in `rows`) is sheet row `i + 2`.
-/

/-- The canonical header of the `feedback` worksheet (`FEEDBACK_HEADERS` in `bot.py`). -/
def FEEDBACK_HEADERS : List String :=
  ["timestamp", "user_id", "username", "full_name", "company",
   "q1_time_to_setup", "q2_statuses_score", "q3_what_inconvenient",
   "q4_missing_features", "q5_nps_recommend",
   "contact_name", "contact_phone", "contact_tg", "contact_email",
   "free_comment",
   "raw_json"]

/-- A worksheet: its header row plus its data rows. -/
structure Sheet where
  header : List String
  rows : List (List String)
deriving DecidableEq

/-- `name_to_col = {name: i+1 for i, name in enumerate(header_row)}` from
`_get_feedback_ws_and_map`: 1-based column of a header name; on duplicate
names the later column wins, as in a Python dict comprehension. -/
def nameToCol (header : List String) (name : String) : Option Nat :=
  match header.reverse.findIdx? (fun h => h == name) with
  | some j => some (header.length - j)
  | none => none

/-- Read a cell (1-based `row`, `col`; row 1 is the header); blank cells and
cells beyond a row's stored width read as `""`, as gspread reads do. -/
def cellVal (s : Sheet) (row col : Nat) : String :=
  if row = 1 then s.header.getD (col - 1) ""
  else ((s.rows[row - 2]?).getD []).getD (col - 1) ""

/-- Pad a row with blanks so that index `i` exists, then write `v` there. -/
def setPad (r : List String) (i : Nat) (v : String) : List String :=
  (r ++ List.replicate (i + 1 - r.length) "").set i v

/-- `ws.update_cell(row, col, value)` with 1-based indices. -/
def update_cell (s : Sheet) (row col : Nat) (v : String) : Sheet :=
  if row = 1 then { s with header := setPad s.header (col - 1) v }
  else { s with
          rows := s.rows.set (row - 2)
            (setPad ((s.rows[row - 2]?).getD []) (col - 1) v) }

/-- `ws.findall(value)`: every cell of the worksheet whose value equals `v`,
as (row, col) pairs, 1-based with the header as row 1. -/
def cellsMatching (s : Sheet) (v : String) : List (Nat × Nat) :=
  ((s.header :: s.rows).enum.map (fun p =>
    p.2.enum.filterMap (fun q =>
      if q.2 = v then some (p.1 + 1, q.1 + 1) else none))).flatten

/-- `_find_last_row_for_user`: find all cells matching `str(user_id)`, keep the
ones in the `user_id` column (default column 2), but fall back to **all**
matching cells when none sit in that column; the answer is the highest
matching row number (`max(c.row for c in target)`). -/
def find_last_row_for_user (s : Sheet) (user_id : Nat) : Option Nat :=
  let cells := cellsMatching s (toString user_id)
  if cells.isEmpty then none
  else
    let user_col := (nameToCol s.header "user_id").getD 2
    let same_col := cells.filter (fun c => c.2 = user_col)
    let target := if same_col.isEmpty then cells else same_col
    some ((target.map Prod.fst).foldl max 0)

/-- Modelled from the spec: `find_latest_row_for_key` "scans for all cells
matching `key_value` restricted to `key_column`; returns the highest row index
among matches, or not found". -/
def find_latest_row_spec (s : Sheet) (key_column : Nat) (key_value : String) :
    Option Nat :=
  let hits := (cellsMatching s key_value).filter (fun c => c.2 = key_column)
  if hits.isEmpty then none else some ((hits.map Prod.fst).foldl max 0)

/-- `len(name_to_col)` in `append_feedback_row`: the number of distinct header
names (the size of the Python dict). -/
def numCols (header : List String) : Nat := header.dedup.length

/-- The identity fields of the aiogram `User` that `append_feedback_row` reads
(`username or ""` already applied; full name already joined and stripped). -/
structure UserInfo where
  id : Nat
  username : String
  fullName : String
deriving DecidableEq

/-- `setv(name, val)` inside `append_feedback_row`: write `val` at the column
mapped to `name` when the header has such a column, else do nothing. -/
def setv (header : List String) (r : List String) (name v : String) : List String :=
  match nameToCol header name with
  | some idx => r.set (idx - 1) v
  | none => r

/-- `data.get(key, default)` on a string-keyed dict. -/
def lookupD (m : List (String × String)) (k d : String) : String :=
  (m.lookup k).getD d

/-- The full-width row built by `append_feedback_row` before its retry loop:
timestamp `ts`, identity fields of `u`, the survey answers drawn from `data`
(absent keys giving `""`), and the serialized snapshot `dumps` of `data`
(`json.dumps(data)`).  The contact and free-comment columns are never written
by this function. -/
def buildFeedbackRow (header : List String) (ts : String) (u : UserInfo)
    (dumps : String) (data : List (String × String)) : List String :=
  let r := List.replicate (numCols header) ""
  let r := setv header r "timestamp" ts
  let r := setv header r "user_id" (toString u.id)
  let r := setv header r "username" u.username
  let r := setv header r "full_name" u.fullName
  let r := setv header r "company" (lookupD data "company" "")
  let r := setv header r "q1_time_to_setup" (lookupD data "q1" "")
  let r := setv header r "q2_statuses_score" (lookupD data "q2" "")
  let r := setv header r "q3_what_inconvenient" (lookupD data "q3" "")
  let r := setv header r "q4_missing_features" (lookupD data "q4" "")
  let r := setv header r "q5_nps_recommend" (lookupD data "q5" "")
  let r := setv header r "raw_json" dumps
  r

/-- The sheet-level effect of a successful `append_feedback_row` call: one row
appended at the bottom. -/
def appendFeedbackRowSheet (s : Sheet) (ts : String) (u : UserInfo)
    (dumps : String) (data : List (String × String)) : Sheet :=
  { s with rows := s.rows ++ [buildFeedbackRow s.header ts u dumps data] }

/-- The amendment keys written by `upsert_contacts_for_user`. -/
def contactKeys : List String :=
  ["contact_name", "contact_phone", "contact_tg", "contact_email"]

/-- `upsert_contacts_for_user`: update the four contact columns of the latest
row found for the user, or append a fresh row via `append_feedback_row` (with
the contact payload as `data`) when no row is found. -/
def upsert_contacts_for_user (s : Sheet) (ts : String) (u : UserInfo)
    (dumps : String) (data : List (String × String)) : Sheet :=
  match find_last_row_for_user s u.id with
  | some row =>
      contactKeys.foldl (fun sh key =>
        match nameToCol s.header key with
        | some col => update_cell sh row col (lookupD data key "")
        | none => sh) s
  | none =>
      appendFeedbackRowSheet s ts u dumps
        [("contact_name", lookupD data "contact_name" ""),
         ("contact_phone", lookupD data "contact_phone" ""),
         ("contact_tg", lookupD data "contact_tg" ""),
         ("contact_email", lookupD data "contact_email" "")]

/-- `upsert_comment_for_user`: update the `free_comment` column of the latest
row found for the user, or append a fresh row via `append_feedback_row` when
no row is found. -/
def upsert_comment_for_user (s : Sheet) (ts : String) (u : UserInfo)
    (dumps : String) (data : List (String × String)) : Sheet :=
  match find_last_row_for_user s u.id with
  | some row =>
      match nameToCol s.header "free_comment" with
      | some col => update_cell s row col (lookupD data "free_comment" "")
      | none => s
  | none =>
      appendFeedbackRowSheet s ts u dumps
        [("free_comment", lookupD data "free_comment" "")]

/-! ## i18n catalogue and language store -/

/-- The Russian catalogue `TXT["ru"]` of `bot.py`. -/
def TXTru : List (String × String) :=
  [("choose_lang", "Выбери язык интерфейса:"),
   ("lang_ru", "🇷🇺 Русский"),
   ("lang_uz", "🇺🇿 O‘zbekcha"),
   ("hello", "Привет! Это тестовый бот для партнёров автопроката.\nПомоги нам улучшить агрегатор — ответь на 5 быстрых вопросов (2–3 минуты)."),
   ("start_btn", "Начать опрос"),
   ("cancel", "Отменить"),
   ("thanks", "Спасибо! Ответы сохранены. 🎉\nЕсли готовы — напишите, созвонимся по деталям."),
   ("after_thanks", "Хочешь оставить контакты или написать своё мнение?"),
   ("err", "Ой! Что-то пошло не так. Попробуй ещё раз /start"),
   ("q1", "1/5. Сколько времени ушло на регистрацию и добавление первой машины?\n\nМожно нажать кнопку или написать свой вариант."),
   ("q1_opt1", "до 15 минут"),
   ("q1_opt2", "15–30 минут"),
   ("q1_opt3", "более 30 минут"),
   ("q2", "2/5. Насколько понятны статусы заявок и уведомления?\n\nОцени по шкале 1–10 (где 10 — идеально). Можно ввести число вручную."),
   ("q3", "3/5. Что показалось неудобным? (свободный ответ)"),
   ("q4", "4/5. Каких функций не хватает в первую очередь? (например: онлайн-оплата, шаблоны цен, импорт)"),
   ("q5", "5/5. Готовы ли рекомендовать коллегам? Укажи оценку 1–10.\nМожно нажать кнопку или ввести число."),
   ("ask_company", "Укажи название компании (как у вас в Telegram/Instagram/юр. название)"),
   ("done", "Готово ✅"),
   ("back", "⬅️ Назад"),
   ("skip", "Пропустить"),
   ("change_lang_hint", "Чтобы сменить язык позже, используй /lang"),
   ("lang_switched", "Язык переключён."),
   ("form_started", "Погнали! Сначала уточним компанию:"),
   ("diag_ok", "Диагностика OK: запись в таблицу работает."),
   ("diag_fail", "Диагностика: запись в таблицу не удалась."),
   ("no_data", "Пока нет данных для статистики."),
   ("stats_title", "Сводка по ответам"),
   ("stats_n", "Всего ответов: {n}"),
   ("stats_q1_dist", "Q1 — время на старт:\n{dist}"),
   ("stats_avg", "Средние значения:\n• Q2 (понятность статусов): {avg_q2}\n• Q5 (NPS): {avg_q5}"),
   ("stats_top_keywords", "Топ слов из свободных полей (Q3+Q4):\n{words}"),
   ("btn_contacts", "Оставить контакты"),
   ("btn_comment", "Написать мнение"),
   ("ask_contact_name", "Как к вам обращаться?"),
   ("ask_contact_phone", "Телефон или @telegram для связи:"),
   ("ask_contact_email", "Email (по желанию). Если нет — отправьте «-»."),
   ("contacts_saved", "Спасибо! Контакты записал. Свяжемся ✌️"),
   ("ask_free_comment", "Оставьте ваш комментарий свободным текстом:"),
   ("comment_saved", "Принял, спасибо! 📩 Передал менеджеру."),
   ("inbox_echo", "Принял, передал менеджеру 👌")]

/-- The Uzbek catalogue `TXT["uz"]` of `bot.py`. -/
def TXTuz : List (String × String) :=
  [("choose_lang", "Интерфейс тилини танланг:"),
   ("lang_ru", "🇷🇺 Русча"),
   ("lang_uz", "🇺🇿 O‘zbekcha"),
   ("hello", "Салом! Бу тест бот — автопрокат ҳамкорлари учун.\nАгрегаторни яхшилашга ёрдам беринг: 5 та қисқа савол (2–3 дақиқа)."),
   ("start_btn", "Сўровномани бошлаш"),
   ("cancel", "Бекор қилиш"),
   ("thanks", "Раҳмат! Жавоблар сақланди. 🎉"),
   ("after_thanks", "Контакт қолдирамизми ёки фикр ёзамизми?"),
   ("err", "Уй! Нимадир хато. Қайта /start қилинг."),
   ("q1", "1/5. Рўйхатдан ўтиш ва биринчи машинани қўшишга қанча вақт кетди?\n\nКнопкани босинг ёки ўз вариантини ёзинг."),
   ("q1_opt1", "15 дақиқагача"),
   ("q1_opt2", "15–30 дақиқа"),
   ("q1_opt3", "30 дақиқадан кўпроқ"),
   ("q2", "2/5. Аризалар статуслари ва хабарномалар қай даражада тушунарли?\n1–10 баҳоланг (қўлдан ёзиш мумкин)."),
   ("q3", "3/5. Нима ноқулай туюлди? (эркин жавоб)"),
   ("q4", "4/5. Қайси функциялар етишмайди? (масалан: онлайн тўлов, нарх шаблонлари, импорт)"),
   ("q5", "5/5. Ҳамкасбларга тавсия қиласизми? 1–10 баҳоланг (кнопка ёки рақам)."),
   ("ask_company", "Компания номини киритинг (TG/Instagram/ёки юр. ном)"),
   ("done", "Тайёр ✅"),
   ("back", "⬅️ Орқага"),
   ("skip", "Ўтказиб юбориш"),
   ("change_lang_hint", "Кейинроқ тилни /lang орқали ўзгартиришингиз мумкин."),
   ("lang_switched", "Тил ўзгартирилди."),
   ("form_started", "Бошладик! Аввало компания номини аниқлаймиз:"),
   ("diag_ok", "Диагностика OK: жадвалга ёзиш ишлаяпти."),
   ("diag_fail", "Диагностика: жадвалга ёзиш муваффақиятсиз."),
   ("no_data", "Ҳали статистика учун маълумот йўқ."),
   ("stats_title", "Жавоблар бўйича қисқа ҳисобот"),
   ("stats_n", "Жами жавоблар: {n}"),
   ("stats_q1_dist", "Q1 — стартга кетган вақт:\n{dist}"),
   ("stats_avg", "Ўртача қийматлар:\n• Q2 (статус тушунарлилиги): {avg_q2}\n• Q5 (NPS): {avg_q5}"),
   ("stats_top_keywords", "Эркин жавоблардан калит сўзлар (Q3+Q4):\n{words}"),
   ("btn_contacts", "Алоқа қолдириш"),
   ("btn_comment", "Фикр ёзиш"),
   ("ask_contact_name", "Қандай мурожаат қилсам бўлади?"),
   ("ask_contact_phone", "Телефон ёки @telegram:"),
   ("ask_contact_email", "Email (ихтиёрий). Йўқ бўлса — «-»."),
   ("contacts_saved", "Раҳмат! Контактлар сақланди."),
   ("ask_free_comment", "Фикрингизни ёзиб қолдиринг:"),
   ("comment_saved", "Қабул қилдим, раҳмат! 📩 Менежерга узатдим."),
   ("inbox_echo", "Қабул қилдим, менежерга узатдим 👌")]

/-- The `TXT` i18n dictionary: locale → catalogue. -/
def TXT : String → Option (List (String × String))
  | "ru" => some TXTru
  | "uz" => some TXTuz
  | _ => none

/-- Update-or-insert on an association list (a Python dict assignment). -/
def updAssoc {α β : Type} [DecidableEq α] (m : List (α × β)) (k : α) (v : β) :
    List (α × β) :=
  if k ∈ m.map Prod.fst then m.map (fun p => if p.1 = k then (k, v) else p)
  else m ++ [(k, v)]

/-- `"uz" if DEFAULT_LOCALE == "uz" else "ru"`, the default-locale fallback of
`get_lang`. -/
def defaultLang (default_locale : String) : String :=
  if default_locale = "uz" then "uz" else "ru"

/-- The normalization at the top of `set_user_lang`:
`lang = "uz" if lang == "uz" else "ru"`. -/
def normalizeLang (lang : String) : String :=
  if lang = "uz" then "uz" else "ru"

/-- The in-memory `_lang_cache` write performed by `set_user_lang` (the
asynchronous best-effort write to the `users` worksheet stores the same
normalized value and is never read back by `get_lang`). -/
def set_user_lang (cache : List (Nat × String)) (user_id : Nat) (lang : String) :
    List (Nat × String) :=
  updAssoc cache user_id (normalizeLang lang)

/-- `get_lang`: a falsy user id (absent, or `0`) and a cache miss both resolve
to the configured default; otherwise the cached value.  The persisted `users`
worksheet is not consulted. -/
def get_lang (cache : List (Nat × String)) (default_locale : String) :
    Option Nat → String
  | none => defaultLang default_locale
  | some u =>
    if u = 0 then defaultLang default_locale
    else
      match cache.lookup u with
      | some l => l
      | none => defaultLang default_locale

/-- Modelled from the spec: the language read resolution order
"in-memory-first, persisted-store-fallback, then configured-default-fallback"
(the persisted `users` table consulted on a cache miss is absent from
`get_lang` in the source). -/
def get_lang_spec (cache store : List (Nat × String)) (default_locale : String) :
    Option Nat → String
  | none => defaultLang default_locale
  | some u =>
    match cache.lookup u with
    | some l => l
    | none =>
      match store.lookup u with
      | some l => l
      | none => defaultLang default_locale

/-- `t(user_id, key)`: look the key up in the catalogue of the user's resolved
language, falling back to the Russian catalogue for an unknown language and to
the key itself for an unknown key (`TXT.get(lang, TXT["ru"]).get(key, key)`). -/
def t (cache : List (Nat × String)) (default_locale : String)
    (user_id : Option Nat) (key : String) : String :=
  let lang := get_lang cache default_locale user_id
  (((TXT lang).getD TXTru).lookup key).getD key

/-! ## The survey state machine -/

/-- The aiogram FSM states of `class Form(StatesGroup)`. -/
inductive FormStep
  | company | q1 | q2 | q3 | q4 | q5
  | contact_name | contact_phone | contact_email | free_comment
deriving DecidableEq

/-- A user's conversation session: the FSM state (`none` = no active session)
plus the accumulated `update_data` answers. -/
structure Session where
  step : Option FormStep
  answers : List (String × String)
deriving DecidableEq

/-- `update_data` on the session's answers. -/
def updData (m : List (String × String)) (k v : String) : List (String × String) :=
  updAssoc m k v

/-- `order` in `prev_state_of`. -/
def stepOrder : List FormStep := [.company, .q1, .q2, .q3, .q4, .q5]

/-- `prev_state_of(state)`: position in `order`, one step back; `None` at the
first step or for a state outside the list. -/
def prev_state_of (st : FormStep) : Option FormStep :=
  match stepOrder.findIdx? (fun x => x == st) with
  | some i => if i > 0 then stepOrder.get? (i - 1) else none
  | none => none

/-- `next_map` in the `nav:skip` branch of `cb_answers`. -/
def next_map (st : FormStep) : Option FormStep :=
  match st with
  | .company => some .q1
  | .q1 => some .q2
  | .q2 => some .q3
  | .q3 => some .q4
  | .q4 => some .q5
  | _ => none

/-- `str.split(c)` with a one-character separator and no maxsplit: adjacent
separators give empty fragments, as in Python. -/
def splitChars (c : Char) : List Char → List (List Char)
  | [] => [[]]
  | x :: xs =>
    let r := splitChars c xs
    if x = c then [] :: r
    else
      match r with
      | y :: ys => (x :: y) :: ys
      | [] => [[x]]

/-- Re-join fragments with `':'` (the part of `split(":", 2)` that keeps the
colons beyond the second in the third fragment). -/
def joinWithColon : List (List Char) → List Char
  | [] => []
  | [x] => x
  | x :: y :: rest => x ++ ':' :: joinWithColon (y :: rest)

/-- `data.split(":", 2)`: split on `':'` into at most three parts, the third
keeping any further colons. -/
def pySplit2 (s : String) : List String :=
  match splitChars ':' s.toList with
  | a :: b :: c :: rest => [String.mk a, String.mk b, String.mk (joinWithColon (c :: rest))]
  | parts => parts.map (fun l => String.mk l)

/-- `parse_answer(data)` from `bot.py` (`":" in data` is the membership test
of the colon character). -/
def parse_answer (data : String) : String × Option String :=
  if data.toList.contains ':' then
    match pySplit2 data with
    | [_, b, c] => (b, some c)
    | [a, b] => (a, some b)
    | _ => (data, none)
  else (data, none)

/-- The q1 button mapping in `cb_answers`: `mapping.get(val, val)` over the
localized display strings of the three options (`TXT[get_lang(uid)][...]`;
`get_lang` only ever returns `"ru"` or `"uz"`, so the `getD ""` defaults are
never taken there). -/
def q1Display (lang : String) (v : String) : String :=
  let cat := (TXT lang).getD []
  if v = "opt1" then (cat.lookup "q1_opt1").getD ""
  else if v = "opt2" then (cat.lookup "q1_opt2").getD ""
  else if v = "opt3" then (cat.lookup "q1_opt3").getD ""
  else v

/-- The outcome of running a callback handler: a normal return, or an uncaught
Python exception; either way it carries the session as the handler left it (an
exception aborts the handler before any further state change). -/
inductive HandlerOutcome
  | ok (s : Session)
  | raised (s : Session)
deriving DecidableEq

/-- The session transition of the callback handler `cb_answers` on callback
`data`, together with whether the handler raised (outbound messages and sheet
writes are modelled separately; `lang = get_lang(uid)`).  The `nav:back`
branch with an active session evaluates `StatesGroup.get_state(cur_state)`:
aiogram v3's `StatesGroup` (imported from `aiogram.fsm.state`) has no
attribute `get_state`, so that lookup raises `AttributeError` before
`prev_state_of` can run, and the handler aborts with the session unchanged.
The `q5` branch appends the feedback row and then clears the session whatever
the append's outcome.  The `none` fallbacks of the `q1`/`q2`/`q5` branches
are unreachable under the router's `ans:`/`nav:`/`post:` prefix filter, which
forces a parsed value there. -/
def cb_answers_run (lang : String) (s : Session) (data : String) : HandlerOutcome :=
  let p := parse_answer data
  let data_key := p.1
  let val := p.2
  if data_key = "post" then
    if val = some "contact" then .ok { s with step := some .contact_name }
    else if val = some "comment" then .ok { s with step := some .free_comment }
    else .ok s
  else if data_key = "nav" then
    if val = some "back" then
      match s.step with
      | none => .ok s
      | some _ => .raised s
    else if val = some "skip" then
      match s.step with
      | none => .ok s
      | some st =>
        match next_map st with
        | some nxt => .ok { s with step := some nxt }
        | none => .ok s
    else .ok s
  else if data_key = "q1" then
    match val with
    | some v =>
      .ok { step := some .q2, answers := updData s.answers "q1" (q1Display lang v) }
    | none => .ok s
  else if data_key = "q2" then
    match val with
    | some v => .ok { step := some .q3, answers := updData s.answers "q2" v }
    | none => .ok s
  else if data_key = "q5" then
    match val with
    | some _ => .ok { step := none, answers := [] }
    | none => .ok s
  else .ok s

/-- The session after `cb_answers` ran on the callback, whether or not the
handler raised: an uncaught exception leaves the session exactly as it was. -/
def cb_answers (lang : String) (s : Session) (data : String) : Session :=
  match cb_answers_run lang s data with
  | .ok s' => s'
  | .raised s' => s'

/-- `txt.replace(" ", "").isdigit()` — modelled over ASCII digits. -/
def pyIsDigit (s : String) : Bool :=
  s ≠ "" && s.toList.all Char.isDigit

/-- The session transition of the free-text message handlers (`ask_company`,
`q1_text` … `q5_text`, the contact handlers and `post_comment_text`), keyed by
the current FSM state; with no active state `fallback_inbox` leaves the
session unchanged.  The `q5`, `contact_email` and `free_comment` handlers
persist the collected data (modelled separately) and clear the session. -/
def handleMessage (s : Session) (text : String) : Session :=
  match s.step with
  | some .company => { step := some .q1, answers := updData s.answers "company" text.trim }
  | some .q1 => { step := some .q2, answers := updData s.answers "q1" text.trim }
  | some .q2 => { step := some .q3, answers := updData s.answers "q2" text.trim }
  | some .q3 => { step := some .q4, answers := updData s.answers "q3" text.trim }
  | some .q4 => { step := some .q5, answers := updData s.answers "q4" text.trim }
  | some .q5 => { step := none, answers := [] }
  | some .contact_name =>
      { step := some .contact_phone,
        answers := updData s.answers "contact_name" text.trim }
  | some .contact_phone =>
      let txt := text.trim
      let phone := if txt.startsWith "+" || pyIsDigit (txt.replace " " "") then txt else ""
      let tg := if txt.startsWith "@" then txt else ""
      { step := some .contact_email,
        answers := updData (updData s.answers "contact_phone" phone) "contact_tg" tg }
  | some .contact_email => { step := none, answers := [] }
  | some .free_comment => { step := none, answers := [] }
  | none => s

/-- The scale-button tokens of `kb_scale` (`[str(i) for i in range(1, 11)]`). -/
def scaleToks : List String :=
  ["1", "2", "3", "4", "5", "6", "7", "8", "9", "10"]

/-- The enumerated option tokens offered by the keyboards of each step. -/
def stepOptions (st : FormStep) : List String :=
  match st with
  | .q1 => ["opt1", "opt2", "opt3"]
  | .q2 => scaleToks
  | .q5 => scaleToks
  | _ => []

/-- The callback-data answer key of a survey step (`ans:<key>:<token>`). -/
def stepKey (st : FormStep) : String :=
  match st with
  | .company => "company"
  | .q1 => "q1"
  | .q2 => "q2"
  | .q3 => "q3"
  | .q4 => "q4"
  | .q5 => "q5"
  | .contact_name => "contact_name"
  | .contact_phone => "contact_phone"
  | .contact_email => "contact_email"
  | .free_comment => "free_comment"

/-- One user input supplying an answer: free text, or a keyboard choice. -/
inductive Ans
  | text (s : String)
  | choice (tok : String)

/-- An accepted answer at step `st`: free text is always accepted, a choice
must carry a token from the step's enumerated option set. -/
def accepted (st : FormStep) : Ans → Prop
  | .text _ => True
  | .choice tok => tok ∈ stepOptions st

/-- Feed one answer to the bot: free text goes through the message handlers,
a choice arrives as the callback `ans:<step>:<token>` for the current step. -/
def applyAns (lang : String) (s : Session) (a : Ans) : Session :=
  match a with
  | .text txt => handleMessage s txt
  | .choice tok =>
    match s.step with
    | some st => cb_answers lang s ("ans:" ++ stepKey st ++ ":" ++ tok)
    | none => s

/-! ## `append_feedback_row` retry behaviour -/

/-- One run's environment for `append_feedback_row`: whether opening the
worksheet (`_get_feedback_ws_and_map`, called once before the loop) succeeds,
and which append attempts succeed. -/
structure AppendEnv where
  openOk : Bool
  attemptOk : Nat → Bool

/-- Observable I/O events of `append_feedback_row`; sleeps are recorded in
tenths of a second (`0.7 * attempt` seconds = `7 * attempt` tenths). -/
inductive SheetEvent
  | openTable
  | appendAttempt (attempt : Nat)
  | sleepTenths (tenths : Nat)
deriving DecidableEq

/-- `for attempt in range(1, 4)` of `append_feedback_row`, over the list of
attempt numbers still to run: try the append and return `True` at once on
success; on any exception log it, sleep `0.7 * attempt` seconds and go on;
after the loop return `False`. -/
def appendAttempts (env : AppendEnv) : List Nat → List SheetEvent × Bool
  | [] => ([], false)
  | attempt :: rest =>
    if env.attemptOk attempt then ([.appendAttempt attempt], true)
    else
      let r := appendAttempts env rest
      (.appendAttempt attempt :: .sleepTenths (7 * attempt) :: r.1, r.2)

/-- `append_feedback_row`: open the worksheet and resolve its columns once (an
exception raised there propagates to the caller, that call being outside the
`try`), then run the retry loop over attempts `range(1, 4) = [1, 2, 3]`; the
boolean is the returned success flag. -/
def append_feedback_row (env : AppendEnv) : Except Unit (List SheetEvent × Bool) :=
  if env.openOk then
    let run := appendAttempts env [1, 2, 3]
    .ok (.openTable :: run.1, run.2)
  else .error ()

/-! ## `/stats` aggregation -/

/-- A record returned by `get_all_records` (header-keyed row dict, blanks
normalized to `""`). -/
abbrev RowRec := List (String × String)

/-- Digits to a natural number, most significant first. -/
def digitsToNat (ds : List Char) : Nat :=
  ds.foldl (fun n c => 10 * n + (c.toNat - '0'.toNat)) 0

/-- Model of Python `float(s)` over finite decimal literals: optional sign,
digits with an optional fractional part (at least one digit in total) and an
optional decimal exponent, exact rationals standing in for binary floats.
`"inf"`/`"nan"` parse in Python but fall outside the 1–10 range filter below,
so modelling them as non-parses does not change which cells are kept. -/
def pyFloat? (s : String) : Option ℚ :=
  let cs := s.toList
  let signAndRest : ℚ × List Char :=
    match cs with
    | '+' :: rest => (1, rest)
    | '-' :: rest => (-1, rest)
    | _ => (1, cs)
  let sign := signAndRest.1
  let cs1 := signAndRest.2
  let intPart := cs1.takeWhile Char.isDigit
  let cs2 := cs1.dropWhile Char.isDigit
  let fracAndRest : List Char × List Char :=
    match cs2 with
    | '.' :: rest => (rest.takeWhile Char.isDigit, rest.dropWhile Char.isDigit)
    | _ => ([], cs2)
  let fracPart := fracAndRest.1
  let cs3 := fracAndRest.2
  if intPart.length + fracPart.length = 0 then none
  else
    let mant : ℚ := (digitsToNat (intPart ++ fracPart) : ℚ) / (10 : ℚ) ^ fracPart.length
    let withExp : List Char → Option ℚ := fun rest =>
      let esignAndRest : ℤ × List Char :=
        match rest with
        | '+' :: r => (1, r)
        | '-' :: r => (-1, r)
        | _ => (1, rest)
      let ds := esignAndRest.2.takeWhile Char.isDigit
      let rest2 := esignAndRest.2.dropWhile Char.isDigit
      if ds.isEmpty || !rest2.isEmpty then none
      else some (sign * mant * (10 : ℚ) ^ (esignAndRest.1 * (digitsToNat ds : ℤ)))
    match cs3 with
    | [] => some (sign * mant)
    | 'e' :: rest => withExp rest
    | 'E' :: rest => withExp rest
    | _ => none

/-- `str(r.get(field, "")).strip().replace(",", ".")` from `_nums` in
`cmd_stats`. -/
def numCell (r : RowRec) (field : String) : String :=
  ((lookupD r field "").trim).replace "," "."

/-- `_nums(field)` in `cmd_stats`, written as the source's accumulator loop:
`try: v = float(s); if 1 <= v <= 10: res.append(v); except: pass`. -/
def numsLoop (rows : List RowRec) (field : String) : List ℚ :=
  match rows with
  | [] => []
  | r :: rest =>
    match pyFloat? (numCell r field) with
    | some v =>
      if 1 ≤ v ∧ v ≤ 10 then v :: numsLoop rest field else numsLoop rest field
    | none => numsLoop rest field

/-- The Q2/Q5 average computed by `cmd_stats` (`sum(nums)/len(nums)`; `none`
stands for the em-dash shown when no value qualifies). -/
def statsAvg (rows : List RowRec) (field : String) : Option ℚ :=
  let ns := numsLoop rows field
  if ns.isEmpty then none else some (ns.sum / ns.length)

/-- Written after the spec's words: a cell contributes to the mean exactly
when it parses as a number that is not outside 1–10; non-numeric cells and
out-of-range values are excluded. -/
def includedSpec (rows : List RowRec) (field : String) : List ℚ :=
  rows.filterMap (fun r =>
    (pyFloat? (numCell r field)).bind (fun v =>
      if v < 1 ∨ 10 < v then none else some v))

/-- Cyrillic letters (the block used by the catalogue and the stop list). -/
def isCyrillic (c : Char) : Bool :=
  0x400 ≤ c.toNat && c.toNat ≤ 0x4FF

/-- The character class `[\w’ʼ'-]` of the token-splitting regex in `cmd_stats`
(`\w` modelled over ASCII alphanumerics, underscore and the Cyrillic block). -/
def isWordChar (c : Char) : Bool :=
  c.isAlphanum || c = '_' || isCyrillic c || c = '’' || c = 'ʼ' || c = '\'' || c = '-'

/-- `str.lower()` modelled over ASCII and the Cyrillic block. -/
def pyLowerChar (c : Char) : Char :=
  if 'A' ≤ c ∧ c ≤ 'Z' then Char.ofNat (c.toNat + 32)
  else if 0x410 ≤ c.toNat ∧ c.toNat ≤ 0x42F then Char.ofNat (c.toNat + 32)
  else if c.toNat = 0x401 then Char.ofNat 0x451
  else c

def pyLower (s : String) : String :=
  String.mk (s.toList.map pyLowerChar)

/-- The `stop` set of `cmd_stats`. -/
def STOP : List String :=
  ["и", "в", "на", "что", "как", "или", "за", "до", "после", "для", "это",
   "его", "ее", "мы", "но", "же", "из", "у", "по", "от", "не",
   "сиз", "ва", "билан", "бир", "эмас", "учун", "ҳам", "лекин", "бўлди",
   "ки", "қилса", "қандай",
   "the", "a", "an", "to", "of", "in", "on", "is", "are", "be"]

/-- `re.split(r"[^\w’ʼ'-]+", text)` up to empty edge fragments: the maximal
runs of word characters (the `+` merges separator runs; the empty fragments
Python can yield at the edges are dropped by the length filter either way). -/
def wordRuns (cs : List Char) : List String :=
  match cs with
  | [] => []
  | c :: rest =>
    if isWordChar c then
      String.mk ((c :: rest).takeWhile isWordChar) ::
        wordRuns (rest.dropWhile isWordChar)
    else wordRuns rest
termination_by cs.length
decreasing_by
  · exact Nat.lt_succ_of_le (List.dropWhile_sublist _).length_le
  · simp

/-- `" ".join(free_texts)` over the Q3/Q4 cells of every row. -/
def freeText (rows : List RowRec) : String :=
  String.intercalate " "
    ((rows.map (fun r =>
      [lookupD r "q3_what_inconvenient" "", lookupD r "q4_missing_features" ""])).flatten)

/-- The keyword tokens of `cmd_stats` before counting:
`[w for w in words if len(w) > 2 and w not in stop]`. -/
def statsWords (rows : List RowRec) : List String :=
  let text := pyLower (freeText rows)
  (wordRuns text.toList).filter (fun w => w.length > 2 && !(STOP.contains w))

/-- Written after the spec's words: the tokens kept after stopword removal and
a keep-length-at-least-3 filter. -/
def keywordsSpec (rows : List RowRec) : List String :=
  ((wordRuns (pyLower (freeText rows)).toList).filter
    (fun w => decide (w ∉ STOP))).filter (fun w => decide (3 ≤ w.length))

/-! # Theorems -/

/-! ### Step-advance lemmas for the survey flow -/

theorem applyAns_company_step (lang : String) (s : Session) (a : Ans)
    (hs : s.step = some FormStep.company) (ha : accepted .company a) :
    (applyAns lang s a).step = some FormStep.q1 := by
  obtain ⟨stp, ans⟩ := s
  replace hs : stp = some FormStep.company := hs
  subst hs
  cases a with
  | text txt => rfl
  | choice tok => exact absurd ha (List.not_mem_nil tok)

theorem applyAns_q1_step (lang : String) (s : Session) (a : Ans)
    (hs : s.step = some FormStep.q1) (ha : accepted .q1 a) :
    (applyAns lang s a).step = some FormStep.q2 := by
  obtain ⟨stp, ans⟩ := s
  replace hs : stp = some FormStep.q1 := hs
  subst hs
  cases a with
  | text txt => rfl
  | choice tok =>
    simp [accepted, stepOptions] at ha
    rcases ha with rfl | rfl | rfl <;> rfl

theorem applyAns_q2_step (lang : String) (s : Session) (a : Ans)
    (hs : s.step = some FormStep.q2) (ha : accepted .q2 a) :
    (applyAns lang s a).step = some FormStep.q3 := by
  obtain ⟨stp, ans⟩ := s
  replace hs : stp = some FormStep.q2 := hs
  subst hs
  cases a with
  | text txt => rfl
  | choice tok =>
    simp [accepted, stepOptions, scaleToks] at ha
    rcases ha with rfl | rfl | rfl | rfl | rfl | rfl | rfl | rfl | rfl | rfl <;> rfl

theorem applyAns_q3_step (lang : String) (s : Session) (a : Ans)
    (hs : s.step = some FormStep.q3) (ha : accepted .q3 a) :
    (applyAns lang s a).step = some FormStep.q4 := by
  obtain ⟨stp, ans⟩ := s
  replace hs : stp = some FormStep.q3 := hs
  subst hs
  cases a with
  | text txt => rfl
  | choice tok => exact absurd ha (List.not_mem_nil tok)

theorem applyAns_q4_step (lang : String) (s : Session) (a : Ans)
    (hs : s.step = some FormStep.q4) (ha : accepted .q4 a) :
    (applyAns lang s a).step = some FormStep.q5 := by
  obtain ⟨stp, ans⟩ := s
  replace hs : stp = some FormStep.q4 := hs
  subst hs
  cases a with
  | text txt => rfl
  | choice tok => exact absurd ha (List.not_mem_nil tok)

theorem applyAns_q5_done (lang : String) (s : Session) (a : Ans)
    (hs : s.step = some FormStep.q5) (ha : accepted .q5 a) :
    applyAns lang s a = ⟨none, []⟩ := by
  obtain ⟨stp, ans⟩ := s
  replace hs : stp = some FormStep.q5 := hs
  subst hs
  cases a with
  | text txt => rfl
  | choice tok =>
    simp [accepted, stepOptions, scaleToks] at ha
    rcases ha with rfl | rfl | rfl | rfl | rfl | rfl | rfl | rfl | rfl | rfl <;> rfl

/-- C1: starting at the `company` step, six accepted answers in order — each
either free text or a choice token from the step's enumerated option set —
drive the session through exactly the steps
`company → q1 → q2 → q3 → q4 → q5`, and the sixth accepted answer clears the
session (step and answers both reset). -/
theorem C1_survey_flow (lang : String) (ans0 : List (String × String))
    (a1 a2 a3 a4 a5 a6 : Ans)
    (h1 : accepted .company a1) (h2 : accepted .q1 a2) (h3 : accepted .q2 a3)
    (h4 : accepted .q3 a4) (h5 : accepted .q4 a5) (h6 : accepted .q5 a6) :
    let s0 : Session := ⟨some FormStep.company, ans0⟩
    let s1 := applyAns lang s0 a1
    let s2 := applyAns lang s1 a2
    let s3 := applyAns lang s2 a3
    let s4 := applyAns lang s3 a4
    let s5 := applyAns lang s4 a5
    let s6 := applyAns lang s5 a6
    s0.step = some FormStep.company ∧
    s1.step = some FormStep.q1 ∧ s2.step = some FormStep.q2 ∧
    s3.step = some FormStep.q3 ∧ s4.step = some FormStep.q4 ∧
    s5.step = some FormStep.q5 ∧ s6 = ⟨none, []⟩ := by
  intro s0 s1 s2 s3 s4 s5 s6
  have e1 : s1.step = some FormStep.q1 := applyAns_company_step lang s0 a1 rfl h1
  have e2 : s2.step = some FormStep.q2 := applyAns_q1_step lang s1 a2 e1 h2
  have e3 : s3.step = some FormStep.q3 := applyAns_q2_step lang s2 a3 e2 h3
  have e4 : s4.step = some FormStep.q4 := applyAns_q3_step lang s3 a4 e3 h4
  have e5 : s5.step = some FormStep.q5 := applyAns_q4_step lang s4 a5 e4 h5
  have e6 : s6 = ⟨none, []⟩ := applyAns_q5_done lang s5 a6 e5 h6
  exact ⟨rfl, e1, e2, e3, e4, e5, e6⟩

/-- C1 witness: a concrete run (company as text, q1 by button, q2 by scale
button, q3/q4 as text, q5 by scale button). -/
theorem C1_survey_flow_witness :
    let s0 : Session := ⟨some FormStep.company, []⟩
    let s1 := applyAns "ru" s0 (Ans.text "Acme")
    let s2 := applyAns "ru" s1 (Ans.choice "opt2")
    let s3 := applyAns "ru" s2 (Ans.choice "8")
    let s4 := applyAns "ru" s3 (Ans.text "nothing")
    let s5 := applyAns "ru" s4 (Ans.text "online pay")
    let s6 := applyAns "ru" s5 (Ans.choice "9")
    s0.step = some FormStep.company ∧
    s1.step = some FormStep.q1 ∧ s2.step = some FormStep.q2 ∧
    s3.step = some FormStep.q3 ∧ s4.step = some FormStep.q4 ∧
    s5.step = some FormStep.q5 ∧ s6 = ⟨none, []⟩ :=
  C1_survey_flow "ru" [] (.text "Acme") (.choice "opt2") (.choice "8")
    (.text "nothing") (.text "online pay") (.choice "9")
    trivial (by simp [accepted, stepOptions])
    (by simp [accepted, stepOptions, scaleToks]) trivial trivial
    (by simp [accepted, stepOptions, scaleToks])

/-- C2 counterexample: with the worksheet opening succeeding and every append
attempt failing, the run's event trace contains exactly **one** `openTable`
event — the handle is not reopened on each of the three attempts, contrary to
the claim; moreover a failure in the opening step itself propagates as an
exception to the caller. -/
theorem C2_counterexample :
    (append_feedback_row ⟨true, fun _ => false⟩ =
      .ok ([.openTable, .appendAttempt 1, .sleepTenths 7, .appendAttempt 2,
            .sleepTenths 14, .appendAttempt 3, .sleepTenths 21], false)) ∧
    (([SheetEvent.openTable, .appendAttempt 1, .sleepTenths 7, .appendAttempt 2,
       .sleepTenths 14, .appendAttempt 3, .sleepTenths 21].count
        SheetEvent.openTable) = 1) ∧
    append_feedback_row ⟨false, fun _ => true⟩ = .error () :=
  ⟨rfl, rfl, rfl⟩

/-- C2 amended: `append_feedback_row` opens the worksheet handle exactly once
per invocation, before the retry loop (an exception in that opening
propagates); it then attempts the append up to 3 times, each failed attempt
`k` being followed by a sleep of `0.7 × k` seconds (a linearly increasing
backoff), returns `true` at the first successful attempt and `false` after 3
failures, and no exception from the attempts themselves propagates. -/
theorem C2_append_retry_amended (env : AppendEnv) :
    (env.openOk = false → append_feedback_row env = .error ()) ∧
    (env.openOk = true → env.attemptOk 1 = true →
      append_feedback_row env = .ok ([.openTable, .appendAttempt 1], true)) ∧
    (env.openOk = true → env.attemptOk 1 = false → env.attemptOk 2 = true →
      append_feedback_row env =
        .ok ([.openTable, .appendAttempt 1, .sleepTenths 7, .appendAttempt 2], true)) ∧
    (env.openOk = true → env.attemptOk 1 = false → env.attemptOk 2 = false →
      env.attemptOk 3 = true →
      append_feedback_row env =
        .ok ([.openTable, .appendAttempt 1, .sleepTenths 7, .appendAttempt 2,
              .sleepTenths 14, .appendAttempt 3], true)) ∧
    (env.openOk = true → env.attemptOk 1 = false → env.attemptOk 2 = false →
      env.attemptOk 3 = false →
      append_feedback_row env =
        .ok ([.openTable, .appendAttempt 1, .sleepTenths 7, .appendAttempt 2,
              .sleepTenths 14, .appendAttempt 3, .sleepTenths 21], false)) := by
  refine ⟨fun h0 => ?_, fun h0 h1 => ?_, fun h0 h1 h2 => ?_,
    fun h0 h1 h2 h3 => ?_, fun h0 h1 h2 h3 => ?_⟩
  · simp [append_feedback_row, h0]
  · simp [append_feedback_row, appendAttempts, h0, h1]
  · simp [append_feedback_row, appendAttempts, h0, h1, h2]
  · simp [append_feedback_row, appendAttempts, h0, h1, h2, h3]
  · simp [append_feedback_row, appendAttempts, h0, h1, h2, h3]

/-- C2 amended, witness: the amended theorem applied to a run whose first two
attempts fail and whose third succeeds. -/
theorem C2_append_retry_amended_witness :
    append_feedback_row ⟨true, fun n => n == 3⟩ =
      .ok ([.openTable, .appendAttempt 1, .sleepTenths 7, .appendAttempt 2,
            .sleepTenths 14, .appendAttempt 3], true) :=
  (C2_append_retry_amended ⟨true, fun n => n == 3⟩).2.2.2.1 rfl rfl rfl rfl

/-- C5 counterexample: a q1 choice callback with the out-of-set token `opt9`
is **not** rejected — the session advances from `q1` to `q2` and the raw token
is stored verbatim as the q1 answer. -/
theorem C5_counterexample :
    cb_answers "ru" ⟨some FormStep.q1, []⟩ "ans:q1:opt9" =
      ⟨some FormStep.q2, [("q1", "opt9")]⟩ ∧
    cb_answers "ru" ⟨some FormStep.q1, []⟩ "ans:q1:opt9" ≠ ⟨some FormStep.q1, []⟩ := by
  constructor
  · rfl
  · decide

/-- C5 amended: a choice submission whose token is outside q1's enumerated
option set is accepted rather than rejected — the raw token is stored
verbatim (`mapping.get(val, val)`) and the session advances to q2 exactly as
for a valid token; a callback whose parsed answer key matches none of the
handled keys is silently ignored, the session left unchanged, with no error
surfaced and nothing stored. -/
theorem C5_invalid_choice_amended (lang : String) (s : Session)
    (ans : List (String × String)) (data data2 tok k : String) (v : Option String)
    (hp : parse_answer data = ("q1", some tok))
    (ht1 : tok ≠ "opt1") (ht2 : tok ≠ "opt2") (ht3 : tok ≠ "opt3")
    (hp2 : parse_answer data2 = (k, v))
    (hk : k ∉ (["post", "nav", "q1", "q2", "q5"] : List String)) :
    cb_answers lang ⟨some FormStep.q1, ans⟩ data =
      ⟨some FormStep.q2, updData ans "q1" tok⟩ ∧
    cb_answers lang s data2 = s := by
  simp only [List.mem_cons, List.not_mem_nil, or_false, not_or] at hk
  obtain ⟨hk1, hk2, hk3, hk4, hk5⟩ := hk
  constructor
  · simp [cb_answers, cb_answers_run, hp, q1Display, ht1, ht2, ht3]
  · simp [cb_answers, cb_answers_run, hp2, hk1, hk2, hk3, hk4, hk5]

/-- C5 amended, witness: the amended theorem applied to the token `opt9` at
step q1 and to the unhandled callback `zzz:1`. -/
theorem C5_invalid_choice_amended_witness :
    cb_answers "ru" ⟨some FormStep.q1, []⟩ "ans:q1:opt9" =
      ⟨some FormStep.q2, updData [] "q1" "opt9"⟩ ∧
    cb_answers "ru" ⟨some FormStep.q3, []⟩ "zzz:1" = ⟨some FormStep.q3, []⟩ :=
  C5_invalid_choice_amended "ru" ⟨some FormStep.q3, []⟩ [] "ans:q1:opt9" "zzz:1"
    "opt9" "zzz" (some "1") rfl (by decide) (by decide) (by decide) rfl (by decide)

/-- C6 (code bug): `nav:back` with **any** active session — not just at the
first step — raises `AttributeError` at the `StatesGroup.get_state` call
(aiogram v3's `StatesGroup` defines no such method), so the session never
moves to the preceding step: its step and answers are left unchanged by the
aborted handler.  Only the no-session case is the claim's clean silent no-op.
The last conjunct records that the intended predecessor (q2 for q3) does
exist in `prev_state_of`, yet is never reached. -/
theorem C6_back_navigation_raises (lang : String) (ans : List (String × String))
    (st : FormStep) :
    cb_answers_run lang ⟨some st, ans⟩ "nav:back" = .raised ⟨some st, ans⟩ ∧
    cb_answers lang ⟨some st, ans⟩ "nav:back" = ⟨some st, ans⟩ ∧
    cb_answers_run lang ⟨none, ans⟩ "nav:back" = .ok ⟨none, ans⟩ ∧
    prev_state_of FormStep.q3 = some FormStep.q2 :=
  ⟨rfl, rfl, rfl, by decide⟩

/-- C8 counterexample: a user whose preference sits only in the persisted
language table (cache miss) reads as the configured default under the code's
`get_lang`, while the spec's cache → persisted store → default resolution
would read the persisted value. -/
theorem C8_counterexample :
    get_lang [] "ru" (some 7) = "ru" ∧
    get_lang_spec [] [(7, "uz")] "ru" (some 7) = "uz" :=
  ⟨rfl, rfl⟩

/-- C8 amended: the language read consults the in-memory cache first and
otherwise falls straight through to the configured default; the persisted
`users` table is written on selection but never consulted by `get_lang`. -/
theorem C8_get_lang_amended (cache : List (Nat × String)) (d l : String) (u : Nat)
    (hu : u ≠ 0) :
    (cache.lookup u = some l → get_lang cache d (some u) = l) ∧
    (cache.lookup u = none → get_lang cache d (some u) = defaultLang d) ∧
    get_lang cache d none = defaultLang d := by
  refine ⟨fun h => ?_, fun h => ?_, rfl⟩ <;> simp [get_lang, hu, h]

/-- C8 amended, witness: the amended theorem applied to a one-entry cache. -/
theorem C8_get_lang_amended_witness :
    ([((7 : Nat), "uz")].lookup 7 = some "uz" → get_lang [(7, "uz")] "ru" (some 7) = "uz") ∧
    ([((7 : Nat), "uz")].lookup 7 = none → get_lang [(7, "uz")] "ru" (some 7) = defaultLang "ru") ∧
    get_lang [(7, "uz")] "ru" none = defaultLang "ru" :=
  C8_get_lang_amended [(7, "uz")] "ru" "uz" 7 (by decide)

/-! ### Association-list lemmas -/

theorem lookup_mem_of_eq_some {α β : Type} [BEq α] [LawfulBEq α]
    {l : List (α × β)} {k : α} {v : β} (h : l.lookup k = some v) : (k, v) ∈ l := by
  obtain ⟨l₁, l₂, rfl, -⟩ := List.lookup_eq_some_iff.mp h
  simp

theorem lookup_eq_none_of_not_mem_keys {α β : Type} [BEq α] [LawfulBEq α]
    {l : List (α × β)} {k : α} (h : k ∉ l.map Prod.fst) : l.lookup k = none := by
  induction l with
  | nil => rfl
  | cons p rest ih =>
    simp only [List.map_cons, List.mem_cons, not_or] at h
    obtain ⟨h1, h2⟩ := h
    obtain ⟨a, b⟩ := p
    have : (k == a) = false := beq_eq_false_iff_ne.mpr h1
    simp [List.lookup, this, ih h2]

/-- Any catalogue `TXT` yields is one of the two defined ones. -/
theorem TXT_cases (lang : String) :
    TXT lang = none ∨ TXT lang = some TXTru ∨ TXT lang = some TXTuz := by
  unfold TXT
  split
  · right; left; rfl
  · right; right; rfl
  · left; rfl

/-- C10: `set_user_lang` normalizes its input so only `"ru"` or `"uz"` is ever
stored; consequently, for a cache containing only those two values, every
`get_lang` read returns one of the two locales, both locales resolve to an
existing catalogue in `TXT`, and a `t` lookup with a key unknown to both
catalogues returns the key itself as the fallback string. -/
theorem C10_language_normalization :
    (∀ lang, normalizeLang lang = "ru" ∨ normalizeLang lang = "uz") ∧
    (∀ cache uid lang, (∀ p ∈ cache, p.2 = "ru" ∨ p.2 = "uz") →
      ∀ p ∈ set_user_lang cache uid lang, p.2 = "ru" ∨ p.2 = "uz") ∧
    (∀ cache d uid, (∀ p ∈ cache, p.2 = "ru" ∨ p.2 = "uz") →
      get_lang cache d uid = "ru" ∨ get_lang cache d uid = "uz") ∧
    (∀ lang, lang = "ru" ∨ lang = "uz" → (TXT lang).isSome = true) ∧
    (∀ cache d uid key, key ∉ TXTru.map Prod.fst → key ∉ TXTuz.map Prod.fst →
      t cache d uid key = key) := by
  have hdef : ∀ d, defaultLang d = "ru" ∨ defaultLang d = "uz" := by
    intro d
    unfold defaultLang
    by_cases h : d = "uz" <;> simp [h]
  have hnorm : ∀ lang, normalizeLang lang = "ru" ∨ normalizeLang lang = "uz" := by
    intro lang
    unfold normalizeLang
    by_cases h : lang = "uz" <;> simp [h]
  have hget : ∀ cache d uid, (∀ p ∈ cache, p.2 = "ru" ∨ p.2 = "uz") →
      get_lang cache d uid = "ru" ∨ get_lang cache d uid = "uz" := by
    intro cache d uid hinv
    match uid with
    | none => exact hdef d
    | some u =>
      by_cases hu : u = 0
      · simpa [get_lang, hu] using hdef d
      · cases hl : cache.lookup u with
        | none => simpa [get_lang, hu, hl] using hdef d
        | some l =>
          have := hinv (u, l) (lookup_mem_of_eq_some hl)
          simpa [get_lang, hu, hl] using this
  refine ⟨hnorm, ?_, hget, ?_, ?_⟩
  · intro cache uid lang hinv p hp
    unfold set_user_lang updAssoc at hp
    split at hp
    · rcases List.mem_map.mp hp with ⟨q, hq, rfl⟩
      by_cases hq1 : q.1 = uid
      · simpa [hq1] using hnorm lang
      · simpa [hq1] using hinv q hq
    · rcases List.mem_append.mp hp with hq | hq
      · exact hinv p hq
      · rcases List.mem_singleton.mp hq with rfl
        exact hnorm lang
  · rintro lang (rfl | rfl) <;> rfl
  · intro cache d uid key hru huz
    unfold t
    rcases TXT_cases (get_lang cache d uid) with h | h | h <;>
      simp [h, lookup_eq_none_of_not_mem_keys hru, lookup_eq_none_of_not_mem_keys huz]

/-- C10 witness: the invariant applied to a concrete cache and an unknown
text key. -/
theorem C10_language_normalization_witness :
    (get_lang [(5, "uz")] "ru" (some 5) = "ru" ∨
      get_lang [(5, "uz")] "ru" (some 5) = "uz") ∧
    t [] "ru" none "no_such_key" = "no_such_key" := by
  obtain ⟨-, -, h3, -, h5⟩ := C10_language_normalization
  exact ⟨h3 [(5, "uz")] "ru" (some 5) (by decide),
    h5 [] "ru" none "no_such_key" (by decide) (by decide)⟩

/-- C9: the `/stats` numeric aggregation keeps exactly the cells that parse as
numbers lying within 1–10 inclusive (non-numeric and out-of-range values are
excluded), the reported value is the arithmetic mean of the kept values, and
the keyword list consists of the free-text tokens (Q3 and Q4 columns) that
survive stopword removal and a keep-length-at-least-3 filter. -/
theorem C9_stats_means_keywords :
    (∀ rows field, numsLoop rows field = includedSpec rows field) ∧
    (∀ rows field, statsAvg rows field =
      if includedSpec rows field = [] then none
      else some ((includedSpec rows field).sum / (includedSpec rows field).length)) ∧
    (∀ rows, statsWords rows = keywordsSpec rows) := by
  have hnum : ∀ rows field, numsLoop rows field = includedSpec rows field := by
    intro rows field
    induction rows with
    | nil => rfl
    | cons r rest ih =>
      simp only [numsLoop, includedSpec, List.filterMap_cons] at ih ⊢
      cases h : pyFloat? (numCell r field) with
      | none => simpa using ih
      | some v =>
        simp only [Option.some_bind]
        by_cases hv : 1 ≤ v ∧ v ≤ 10
        · rw [if_pos hv, if_neg (by push_neg; exact hv)]
          exact congrArg (v :: ·) ih
        · rw [if_neg hv, if_pos (by by_contra hc; push_neg at hc; exact hv hc)]
          exact ih
  refine ⟨hnum, ?_, ?_⟩
  · intro rows field
    unfold statsAvg
    rw [hnum rows field]
    by_cases h : includedSpec rows field = [] <;> simp [h]
  · intro rows
    unfold statsWords keywordsSpec
    rw [List.filter_filter]
    apply List.filter_congr
    intro w _
    by_cases h1 : w.length > 2 <;> by_cases h2 : w ∈ STOP <;>
      simp [h1, h2, List.contains, List.elem_iff, Nat.lt_iff_add_one_le] <;>
      omega

/-! ### Lemmas about `foldl max` and matching cells -/

theorem le_foldl_max (l : List Nat) (a : Nat) : a ≤ l.foldl max a := by
  induction l generalizing a with
  | nil => exact Nat.le_refl a
  | cons x xs ih => exact Nat.le_trans (Nat.le_max_left a x) (ih (max a x))

theorem foldl_max_ge (l : List Nat) : ∀ a x, x ∈ l → x ≤ l.foldl max a := by
  induction l with
  | nil => intro a x hx; cases hx
  | cons y ys ih =>
    intro a x hx
    rw [List.foldl_cons]
    rcases List.mem_cons.mp hx with rfl | h
    · exact Nat.le_trans (Nat.le_max_right a x) (le_foldl_max ys (max a x))
    · exact ih (max a y) x h

theorem foldl_max_mem (l : List Nat) (a : Nat) :
    l.foldl max a ∈ l ∨ l.foldl max a = a := by
  induction l generalizing a with
  | nil => right; rfl
  | cons x xs ih =>
    rw [List.foldl_cons]
    rcases ih (max a x) with h | h
    · left; exact List.mem_cons_of_mem _ h
    · rcases max_choice a x with hm | hm
      · right; rw [h, hm]
      · left; rw [h, hm]; exact List.mem_cons_self _ _

/-- Every cell `ws.findall` returns carries a 1-based row number. -/
theorem cellsMatching_row_pos (s : Sheet) (v : String) :
    ∀ p ∈ cellsMatching s v, 1 ≤ p.1 := by
  intro p hp
  unfold cellsMatching at hp
  rw [List.mem_flatten] at hp
  obtain ⟨l, hl, hpl⟩ := hp
  rw [List.mem_map] at hl
  obtain ⟨q, _, rfl⟩ := hl
  rw [List.mem_filterMap] at hpl
  obtain ⟨a, _, hap⟩ := hpl
  split at hap
  · cases hap; exact Nat.le_add_left 1 q.1
  · cases hap

/-- `_find_last_row_for_user` rewritten with its branching made explicit. -/
theorem find_last_row_eq (s : Sheet) (uid : Nat) :
    find_last_row_for_user s uid =
      (if (cellsMatching s (toString uid)).isEmpty then none
       else if ((cellsMatching s (toString uid)).filter
          (fun c => c.2 = (nameToCol s.header "user_id").getD 2)).isEmpty then
         some (((cellsMatching s (toString uid)).map Prod.fst).foldl max 0)
       else
         some ((((cellsMatching s (toString uid)).filter
            (fun c => c.2 = (nameToCol s.header "user_id").getD 2)).map
              Prod.fst).foldl max 0)) := by
  unfold find_last_row_for_user
  by_cases h1 : (cellsMatching s (toString uid)).isEmpty <;>
    by_cases h2 : ((cellsMatching s (toString uid)).filter
      (fun c => c.2 = (nameToCol s.header "user_id").getD 2)).isEmpty <;>
    simp [h1, h2]

/-- C7 counterexample: a sheet whose sole data row holds the value `"7"` only
in the **timestamp** column (column 1), with the `user_id` column blank.  The
spec-modelled lookup restricted to the key column finds nothing, but the
code's `_find_last_row_for_user` falls back to all matching cells and returns
that row. -/
theorem C7_counterexample :
    find_last_row_for_user ⟨FEEDBACK_HEADERS, [["7", ""]]⟩ 7 = some 2 ∧
    find_latest_row_spec ⟨FEEDBACK_HEADERS, [["7", ""]]⟩
      ((nameToCol FEEDBACK_HEADERS "user_id").getD 2) "7" = none := by
  constructor
  · rfl
  · rfl

/-- C7 amended: the lookup prefers cells in the `user_id` key column — when
any match lies there it returns the highest row index among the key-column
matches; but when cells match only **outside** the key column it falls back to
the highest row index among all matching cells instead of reporting "not
found"; "not found" is returned exactly when no cell of the sheet matches. -/
theorem C7_find_latest_row_amended (s : Sheet) (uid : Nat) :
    (∀ r c, (r, c) ∈ (cellsMatching s (toString uid)).filter
        (fun q => q.2 = (nameToCol s.header "user_id").getD 2) →
      ∃ rmax, find_last_row_for_user s uid = some rmax ∧
        rmax ∈ ((cellsMatching s (toString uid)).filter
          (fun q => q.2 = (nameToCol s.header "user_id").getD 2)).map Prod.fst ∧
        ∀ x ∈ ((cellsMatching s (toString uid)).filter
          (fun q => q.2 = (nameToCol s.header "user_id").getD 2)).map Prod.fst,
          x ≤ rmax) ∧
    ((cellsMatching s (toString uid)).filter
        (fun q => q.2 = (nameToCol s.header "user_id").getD 2) = [] →
      cellsMatching s (toString uid) ≠ [] →
      ∃ rmax, find_last_row_for_user s uid = some rmax ∧
        rmax ∈ (cellsMatching s (toString uid)).map Prod.fst ∧
        ∀ x ∈ (cellsMatching s (toString uid)).map Prod.fst, x ≤ rmax) ∧
    (cellsMatching s (toString uid) = [] → find_last_row_for_user s uid = none) := by
  refine ⟨?_, ?_, ?_⟩
  · intro r c hrc
    have hkeyne : (cellsMatching s (toString uid)).filter
        (fun q => q.2 = (nameToCol s.header "user_id").getD 2) ≠ [] := by
      intro h; rw [h] at hrc; cases hrc
    have hcellne : cellsMatching s (toString uid) ≠ [] := by
      intro h
      exact hkeyne (by rw [h]; rfl)
    refine ⟨(((cellsMatching s (toString uid)).filter
      (fun q => q.2 = (nameToCol s.header "user_id").getD 2)).map Prod.fst).foldl max 0,
      ?_, ?_, ?_⟩
    · rw [find_last_row_eq]
      rw [if_neg (by simpa [List.isEmpty_iff] using hcellne),
          if_neg (by simpa [List.isEmpty_iff] using hkeyne)]
    · have hrmem : r ∈ ((cellsMatching s (toString uid)).filter
          (fun q => q.2 = (nameToCol s.header "user_id").getD 2)).map Prod.fst :=
        List.mem_map.mpr ⟨(r, c), hrc, rfl⟩
      rcases foldl_max_mem (((cellsMatching s (toString uid)).filter
          (fun q => q.2 = (nameToCol s.header "user_id").getD 2)).map Prod.fst) 0 with
        h | h
      · exact h
      · have := foldl_max_ge _ 0 r hrmem
        rw [h] at this ⊢
        exact Nat.le_zero.mp this ▸ hrmem
    · intro x hx
      exact foldl_max_ge _ 0 x hx
  · intro hkey hcell
    refine ⟨((cellsMatching s (toString uid)).map Prod.fst).foldl max 0, ?_, ?_, ?_⟩
    · rw [find_last_row_eq]
      rw [if_neg (by simpa [List.isEmpty_iff] using hcell), if_pos (by simp [hkey])]
    · rcases foldl_max_mem ((cellsMatching s (toString uid)).map Prod.fst) 0 with h | h
      · exact h
      · exfalso
        obtain ⟨p, hp⟩ := List.exists_mem_of_ne_nil _ hcell
        have h1 : 1 ≤ p.1 := cellsMatching_row_pos s (toString uid) p hp
        have hmem : p.1 ∈ (cellsMatching s (toString uid)).map Prod.fst :=
          List.mem_map.mpr ⟨p, hp, rfl⟩
        have := foldl_max_ge _ 0 p.1 hmem
        omega
    · intro x hx
      exact foldl_max_ge _ 0 x hx
  · intro h
    rw [find_last_row_eq, if_pos (by simp [h])]

/-- C7 amended, witness: the amended lookup applied to a two-row sheet whose
`user_id` column holds `"7"` in both data rows (rows 2 and 3). -/
theorem C7_find_latest_row_amended_witness :
    ∃ rmax, find_last_row_for_user ⟨FEEDBACK_HEADERS, [["", "7"], ["", "7"]]⟩ 7 =
        some rmax ∧
      rmax ∈ ((cellsMatching ⟨FEEDBACK_HEADERS, [["", "7"], ["", "7"]]⟩ "7").filter
        (fun q => q.2 = (nameToCol FEEDBACK_HEADERS "user_id").getD 2)).map Prod.fst ∧
      ∀ x ∈ ((cellsMatching ⟨FEEDBACK_HEADERS, [["", "7"], ["", "7"]]⟩ "7").filter
        (fun q => q.2 = (nameToCol FEEDBACK_HEADERS "user_id").getD 2)).map Prod.fst,
        x ≤ rmax :=
  (C7_find_latest_row_amended ⟨FEEDBACK_HEADERS, [["", "7"], ["", "7"]]⟩ 7).1
    2 2 (by decide)

/-! ### Single-cell update lemmas -/

theorem getD_setPad (r : List String) (i j : Nat) (v : String) :
    (setPad r i v).getD j "" = if j = i then v else r.getD j "" := by
  unfold setPad
  rw [List.getD_eq_getElem?_getD, List.getElem?_set]
  by_cases hij : i = j
  · subst hij
    rw [if_pos rfl, if_pos (by rw [List.length_append, List.length_replicate]; omega),
        if_pos rfl]
    rfl
  · rw [if_neg hij, if_neg (fun h => hij h.symm), List.getElem?_append]
    by_cases hj : j < r.length
    · rw [if_pos hj, List.getD_eq_getElem?_getD]
    · rw [if_neg hj, List.getElem?_replicate]
      have hr : r.getD j "" = "" := by
        rw [List.getD_eq_getElem?_getD, List.getElem?_eq_none (by omega)]
        rfl
      rw [hr]
      by_cases hlt : j - r.length < i + 1 - r.length
      · rw [if_pos hlt]; rfl
      · rw [if_neg hlt]; rfl

theorem update_cell_header (s : Sheet) (row col : Nat) (v : String) (h : 2 ≤ row) :
    (update_cell s row col v).header = s.header := by
  unfold update_cell
  rw [if_neg (by omega : ¬ row = 1)]

theorem update_cell_length (s : Sheet) (row col : Nat) (v : String) (h : 2 ≤ row) :
    (update_cell s row col v).rows.length = s.rows.length := by
  unfold update_cell
  rw [if_neg (by omega : ¬ row = 1)]
  exact List.length_set _ _ _

/-- Reading after `update_cell`: the addressed cell holds the new value, every
other (1-based) cell is unchanged. -/
theorem cellVal_update_cell (s : Sheet) (row col r c : Nat) (v : String)
    (hrow : 2 ≤ row) (hlt : row - 2 < s.rows.length) (hr : 1 ≤ r) (hc : 1 ≤ c)
    (hcol : 1 ≤ col) :
    cellVal (update_cell s row col v) r c =
      if r = row ∧ c = col then v else cellVal s r c := by
  have hne : ¬ row = 1 := by omega
  unfold update_cell cellVal
  rw [if_neg hne]
  dsimp only
  by_cases hr1 : r = 1
  · rw [if_pos hr1, if_pos hr1, if_neg (by omega : ¬ (r = row ∧ c = col))]
  · rw [if_neg hr1, if_neg hr1]
    by_cases hrr : r = row
    · subst hrr
      rw [List.getElem?_set, if_pos rfl, if_pos hlt]
      simp only [Option.getD_some]
      rw [getD_setPad]
      by_cases hcc : c = col
      · rw [if_pos (by omega : c - 1 = col - 1)]
        simp [hcc]
      · rw [if_neg (by omega : ¬ (c - 1 = col - 1))]
        simp [hcc]
    · rw [List.getElem?_set, if_neg (by omega : ¬ (row - 2 = r - 2)),
          if_neg (fun h => hrr h.1)]

theorem nameToCol_contact_name :
    nameToCol FEEDBACK_HEADERS "contact_name" = some 11 := by decide

theorem nameToCol_contact_phone :
    nameToCol FEEDBACK_HEADERS "contact_phone" = some 12 := by decide

theorem nameToCol_contact_tg :
    nameToCol FEEDBACK_HEADERS "contact_tg" = some 13 := by decide

theorem nameToCol_contact_email :
    nameToCol FEEDBACK_HEADERS "contact_email" = some 14 := by decide

theorem nameToCol_free_comment :
    nameToCol FEEDBACK_HEADERS "free_comment" = some 15 := by decide

/-- With a row found, `upsert_contacts_for_user` is the chain of the four
contact-column writes. -/
theorem upsert_contacts_unfold (s : Sheet) (ts dumps : String) (u : UserInfo)
    (data : List (String × String)) (rr : Nat)
    (hh : s.header = FEEDBACK_HEADERS)
    (hfind : find_last_row_for_user s u.id = some rr) :
    upsert_contacts_for_user s ts u dumps data =
      update_cell (update_cell (update_cell (update_cell s rr 11
          (lookupD data "contact_name" "")) rr 12 (lookupD data "contact_phone" ""))
        rr 13 (lookupD data "contact_tg" "")) rr 14 (lookupD data "contact_email" "") := by
  unfold upsert_contacts_for_user
  rw [hfind, hh]
  simp [contactKeys, nameToCol_contact_name, nameToCol_contact_phone,
    nameToCol_contact_tg, nameToCol_contact_email]

/-- With a row found, `upsert_comment_for_user` is the single `free_comment`
write. -/
theorem upsert_comment_unfold (s : Sheet) (ts dumps : String) (u : UserInfo)
    (dataC : List (String × String)) (rr : Nat)
    (hh : s.header = FEEDBACK_HEADERS)
    (hfind : find_last_row_for_user s u.id = some rr) :
    upsert_comment_for_user s ts u dumps dataC =
      update_cell s rr 15 (lookupD dataC "free_comment" "") := by
  unfold upsert_comment_for_user
  rw [hfind, hh]
  simp [nameToCol_free_comment]

/-- C4: when the lookup finds a prior row for the user on the canonical
feedback sheet, a contact amendment writes exactly the four contact columns
(11–14) of that row and a comment amendment writes exactly the `free_comment`
column (15) of that row; the header, the number of rows, every other row and
every other column of the amended row keep their previous values. -/
theorem C4_amend_existing_row (s : Sheet) (ts dumps : String) (u : UserInfo)
    (data dataC : List (String × String)) (rr : Nat)
    (hh : s.header = FEEDBACK_HEADERS)
    (hfind : find_last_row_for_user s u.id = some rr)
    (h2 : 2 ≤ rr) (hlt : rr - 2 < s.rows.length) :
    ((upsert_contacts_for_user s ts u dumps data).header = s.header ∧
     (upsert_contacts_for_user s ts u dumps data).rows.length = s.rows.length ∧
     (∀ r c, 1 ≤ r → 1 ≤ c → (r ≠ rr ∨ c ∉ ([11, 12, 13, 14] : List Nat)) →
       cellVal (upsert_contacts_for_user s ts u dumps data) r c = cellVal s r c) ∧
     cellVal (upsert_contacts_for_user s ts u dumps data) rr 11 =
       lookupD data "contact_name" "" ∧
     cellVal (upsert_contacts_for_user s ts u dumps data) rr 12 =
       lookupD data "contact_phone" "" ∧
     cellVal (upsert_contacts_for_user s ts u dumps data) rr 13 =
       lookupD data "contact_tg" "" ∧
     cellVal (upsert_contacts_for_user s ts u dumps data) rr 14 =
       lookupD data "contact_email" "") ∧
    ((upsert_comment_for_user s ts u dumps dataC).header = s.header ∧
     (upsert_comment_for_user s ts u dumps dataC).rows.length = s.rows.length ∧
     (∀ r c, 1 ≤ r → 1 ≤ c → (r ≠ rr ∨ c ≠ 15) →
       cellVal (upsert_comment_for_user s ts u dumps dataC) r c = cellVal s r c) ∧
     cellVal (upsert_comment_for_user s ts u dumps dataC) rr 15 =
       lookupD dataC "free_comment" "") := by
  have hcu := upsert_contacts_unfold s ts dumps u data rr hh hfind
  have hco := upsert_comment_unfold s ts dumps u dataC rr hh hfind
  have hr1 : (1 : Nat) ≤ rr := by omega
  -- lengths of the intermediate sheets
  have l1 : (update_cell s rr 11 (lookupD data "contact_name" "")).rows.length =
      s.rows.length := update_cell_length _ _ _ _ h2
  have l2 : (update_cell (update_cell s rr 11 (lookupD data "contact_name" ""))
      rr 12 (lookupD data "contact_phone" "")).rows.length = s.rows.length := by
    rw [update_cell_length _ _ _ _ h2, l1]
  have l3 : (update_cell (update_cell (update_cell s rr 11
      (lookupD data "contact_name" "")) rr 12 (lookupD data "contact_phone" ""))
      rr 13 (lookupD data "contact_tg" "")).rows.length = s.rows.length := by
    rw [update_cell_length _ _ _ _ h2, l2]
  refine ⟨⟨?_, ?_, ?_, ?_, ?_, ?_, ?_⟩, ⟨?_, ?_, ?_, ?_⟩⟩
  · rw [hcu, update_cell_header _ _ _ _ h2, update_cell_header _ _ _ _ h2,
        update_cell_header _ _ _ _ h2, update_cell_header _ _ _ _ h2]
  · rw [hcu, update_cell_length _ _ _ _ h2, l3]
  · intro r c hr hc hcase
    have hc11 : ¬ (r = rr ∧ c = 11) := by
      rcases hcase with h | h
      · exact fun hx => h hx.1
      · exact fun hx => h (by rw [hx.2]; decide)
    have hc12 : ¬ (r = rr ∧ c = 12) := by
      rcases hcase with h | h
      · exact fun hx => h hx.1
      · exact fun hx => h (by rw [hx.2]; decide)
    have hc13 : ¬ (r = rr ∧ c = 13) := by
      rcases hcase with h | h
      · exact fun hx => h hx.1
      · exact fun hx => h (by rw [hx.2]; decide)
    have hc14 : ¬ (r = rr ∧ c = 14) := by
      rcases hcase with h | h
      · exact fun hx => h hx.1
      · exact fun hx => h (by rw [hx.2]; decide)
    rw [hcu,
      cellVal_update_cell _ rr 14 r c _ h2 (by rw [l3]; exact hlt) hr hc (by omega),
      if_neg hc14,
      cellVal_update_cell _ rr 13 r c _ h2 (by rw [l2]; exact hlt) hr hc (by omega),
      if_neg hc13,
      cellVal_update_cell _ rr 12 r c _ h2 (by rw [l1]; exact hlt) hr hc (by omega),
      if_neg hc12,
      cellVal_update_cell _ rr 11 r c _ h2 hlt hr hc (by omega),
      if_neg hc11]
  · rw [hcu,
      cellVal_update_cell _ rr 14 rr 11 _ h2 (by rw [l3]; exact hlt) hr1 (by omega)
        (by omega),
      if_neg (by simp),
      cellVal_update_cell _ rr 13 rr 11 _ h2 (by rw [l2]; exact hlt) hr1 (by omega)
        (by omega),
      if_neg (by simp),
      cellVal_update_cell _ rr 12 rr 11 _ h2 (by rw [l1]; exact hlt) hr1 (by omega)
        (by omega),
      if_neg (by simp),
      cellVal_update_cell _ rr 11 rr 11 _ h2 hlt hr1 (by omega) (by omega),
      if_pos ⟨rfl, rfl⟩]
  · rw [hcu,
      cellVal_update_cell _ rr 14 rr 12 _ h2 (by rw [l3]; exact hlt) hr1 (by omega)
        (by omega),
      if_neg (by simp),
      cellVal_update_cell _ rr 13 rr 12 _ h2 (by rw [l2]; exact hlt) hr1 (by omega)
        (by omega),
      if_neg (by simp),
      cellVal_update_cell _ rr 12 rr 12 _ h2 (by rw [l1]; exact hlt) hr1 (by omega)
        (by omega),
      if_pos ⟨rfl, rfl⟩]
  · rw [hcu,
      cellVal_update_cell _ rr 14 rr 13 _ h2 (by rw [l3]; exact hlt) hr1 (by omega)
        (by omega),
      if_neg (by simp),
      cellVal_update_cell _ rr 13 rr 13 _ h2 (by rw [l2]; exact hlt) hr1 (by omega)
        (by omega),
      if_pos ⟨rfl, rfl⟩]
  · rw [hcu,
      cellVal_update_cell _ rr 14 rr 14 _ h2 (by rw [l3]; exact hlt) hr1 (by omega)
        (by omega),
      if_pos ⟨rfl, rfl⟩]
  · rw [hco, update_cell_header _ _ _ _ h2]
  · rw [hco, update_cell_length _ _ _ _ h2]
  · intro r c hr hc hcase
    have hc15 : ¬ (r = rr ∧ c = 15) := by
      rcases hcase with h | h
      · exact fun hx => h hx.1
      · exact fun hx => h hx.2
    rw [hco, cellVal_update_cell _ rr 15 r c _ h2 hlt hr hc (by omega), if_neg hc15]
  · rw [hco, cellVal_update_cell _ rr 15 rr 15 _ h2 hlt hr1 (by omega) (by omega),
      if_pos ⟨rfl, rfl⟩]

/-- C4 witness: amending contacts on a one-row sheet whose `user_id` column
holds `"7"` — the contact-name column of row 2 takes the new value while an
untouched column (company, column 5) keeps its old value. -/
theorem C4_amend_existing_row_witness :
    cellVal (upsert_contacts_for_user ⟨FEEDBACK_HEADERS,
        [["", "7", "", "", "Acme", "", "", "", "", "", "old", "", "", "", "", ""]]⟩
      "T" ⟨7, "u7", "U"⟩ "raw" [("contact_name", "Alice")]) 2 11 =
      lookupD [("contact_name", "Alice")] "contact_name" "" ∧
    cellVal (upsert_contacts_for_user ⟨FEEDBACK_HEADERS,
        [["", "7", "", "", "Acme", "", "", "", "", "", "old", "", "", "", "", ""]]⟩
      "T" ⟨7, "u7", "U"⟩ "raw" [("contact_name", "Alice")]) 2 5 =
      cellVal ⟨FEEDBACK_HEADERS,
        [["", "7", "", "", "Acme", "", "", "", "", "", "old", "", "", "", "", ""]]⟩ 2 5 := by
  obtain ⟨⟨-, -, hframe, hw11, -, -, -⟩, -⟩ :=
    C4_amend_existing_row ⟨FEEDBACK_HEADERS,
        [["", "7", "", "", "Acme", "", "", "", "", "", "old", "", "", "", "", ""]]⟩
      "T" "raw" ⟨7, "u7", "U"⟩ [("contact_name", "Alice")] [("free_comment", "ok")]
      2 rfl (by decide) (by decide) (by decide)
  exact ⟨hw11, hframe 2 5 (by decide) (by decide) (by decide)⟩

/-- C3 (code bug witness): on a sheet with no prior row for user 7, a contact
amendment falls back to `append_feedback_row` — but that function never maps
the contact keys (nor `free_comment`) to their columns, so the single appended
row has **blank** amendment columns (11–15); the amendment survives only
inside the `raw_json` snapshot (column 16).  The survey answer columns (5–10)
are blank as the claim states. -/
theorem C3_fallback_row_blank_amendment_columns :
    ((upsert_contacts_for_user ⟨FEEDBACK_HEADERS, []⟩ "T" ⟨7, "u7", "U Seven"⟩
        "rawjson" [("contact_name", "Alice"), ("contact_phone", "+998901112233"),
          ("contact_tg", "@alice"), ("contact_email", "alice@example.com")]).rows.length
      = 1) ∧
    (∀ c ∈ ([5, 6, 7, 8, 9, 10, 11, 12, 13, 14, 15] : List Nat),
      cellVal (upsert_contacts_for_user ⟨FEEDBACK_HEADERS, []⟩ "T" ⟨7, "u7", "U Seven"⟩
        "rawjson" [("contact_name", "Alice"), ("contact_phone", "+998901112233"),
          ("contact_tg", "@alice"), ("contact_email", "alice@example.com")]) 2 c = "") ∧
    cellVal (upsert_contacts_for_user ⟨FEEDBACK_HEADERS, []⟩ "T" ⟨7, "u7", "U Seven"⟩
        "rawjson" [("contact_name", "Alice"), ("contact_phone", "+998901112233"),
          ("contact_tg", "@alice"), ("contact_email", "alice@example.com")]) 2 16
      = "rawjson" ∧
    ((upsert_comment_for_user ⟨FEEDBACK_HEADERS, []⟩ "T" ⟨7, "u7", "U Seven"⟩
        "rawjson2" [("free_comment", "great bot")]).rows.length = 1) ∧
    cellVal (upsert_comment_for_user ⟨FEEDBACK_HEADERS, []⟩ "T" ⟨7, "u7", "U Seven"⟩
        "rawjson2" [("free_comment", "great bot")]) 2 15 = "" ∧
    cellVal (upsert_comment_for_user ⟨FEEDBACK_HEADERS, []⟩ "T" ⟨7, "u7", "U Seven"⟩
        "rawjson2" [("free_comment", "great bot")]) 2 16 = "rawjson2" := by
  decide

end FeedbackBot
